import Mathlib

/-!
Verification of `pykube/objects.py`: a shallow embedding of the resource-handle
lifecycle (create / reload / update / delete / exists), namespace resolution,
the replication-controller scale-and-wait loop, and pod log retrieval.

Python objects are modelled with value semantics: `copy.deepcopy` of a JSON
document yields an equal value, so the snapshot `_original_obj` is simply a
second `Doc` field.  Each HTTP operation is split into the request it builds
(a pure function of the handle) and a step function consuming the server's
`Response`; a raised Python exception is an explicit error value, and in the
step functions the handle is returned unchanged alongside the error, mirroring
the fact that an exception prevents the subsequent `set_obj` mutation.
-/

namespace Pykube

/-- A resource document.  The source treats documents as schemaless dicts and
reads/writes only the paths `metadata.name`, `metadata.namespace` and
`spec.replicas`; those paths are record fields here, and `rest` stands for the
opaque remainder of the document (everything the core never inspects).
`ns = none` models an absent `metadata.namespace` key (`dict.get` returning
`None`); `ns = some ""` models the key present with an empty value. -/
structure Doc where
  name : String
  ns : Option String
  replicas : Int
  rest : List (String × String)
deriving DecidableEq, Repr

/-- `DEFAULT_NAMESPACE = "default"` (objects.py line 12). -/
def DEFAULT_NAMESPACE : String := "default"

/-- An HTTP response as the transport collaborator returns it: a status code
and a parsed JSON body. -/
structure Response where
  status_code : Nat
  body : Doc
deriving DecidableEq, Repr

/-- Modelled from the spec: the transport response carries an `ok` flag
(spec section 6, `response{statusCode, body, ok}`); the underlying HTTP library
defines `ok` as `status_code < 400`.  Only statuses 200 and 404 reach the `ok`
test in the source, and for those the two common readings (non-4xx/5xx versus
2xx) agree on every reachable path. -/
def Response.ok (r : Response) : Bool := r.status_code < 400

/-- A status code the transport treats as success (2xx). -/
def isSuccess (s : Nat) : Bool := 200 ≤ s && s < 300

/-- The errors the embedded operations can raise: `ObjectDoesNotExist`
(from pykube.exceptions) carrying the handle's name, and the transport error
raised by `raise_for_status`, carrying the offending status code. -/
inductive PyError where
  | objectDoesNotExist (name : String)
  | httpError (status : Nat)
deriving DecidableEq, Repr

/-- Modelled from the spec: `HTTPClient.raise_for_status` lives outside
`objects.py`; spec section 6 says it "fails with a transport error for non-2xx
statuses the caller has not already special-cased". -/
def raise_for_status (r : Response) : Except PyError Unit :=
  if isSuccess r.status_code then Except.ok () else Except.error (PyError.httpError r.status_code)

/-- One JSON-Patch operation (RFC 6902), as produced by the diff library. -/
inductive PatchOp where
  | replace (path : String) (value : String)
deriving DecidableEq, Repr

/-- Modelled from the spec: `jsonpatch.make_patch` is an external library the
spec treats as a black box ("JSON Patch (RFC 6902) make patch from A to B
semantics").  Over the record model it is a field-wise diff; the property the
core relies on is that equal documents diff to the empty patch and unequal
documents to a non-empty one. -/
def make_patch (a b : Doc) : List PatchOp :=
  (if a.name = b.name then [] else [PatchOp.replace "/metadata/name" b.name]) ++
  (if a.ns = b.ns then [] else [PatchOp.replace "/metadata/namespace" (b.ns.getD "")]) ++
  (if a.replicas = b.replicas then [] else [PatchOp.replace "/spec/replicas" (toString b.replicas)]) ++
  (if a.rest = b.rest then [] else (b.rest.map (fun kv => PatchOp.replace kv.1 kv.2)))

/-- A request body: either a full JSON document (`json.dumps(self.obj)` in
`create`) or a JSON-Patch payload (`str(patch)` in `update`). -/
inductive Payload where
  | jsonBody (d : Doc)
  | jsonPatch (ops : List PatchOp)
deriving DecidableEq, Repr

/-- The keyword arguments `api_kwargs` assembles for the transport call:
target URL, API version, the namespace entry (absent when the class attribute
`namespace` is `None`), plus the per-operation overrides `headers` and `data`.
The `base` entry is omitted: every kind in `objects.py` leaves the class
attribute `base = None`, so `api_kwargs` never adds it. -/
structure Request where
  url : String
  version : String
  ns : Option String
  headers : List (String × String)
  data : Option Payload
deriving DecidableEq, Repr

/-- The per-kind resource descriptor: class attributes `version`, `endpoint`,
`kind`, and whether the class derives from `NamespacedAPIObject`. -/
structure Kind where
  version : String
  endpoint : String
  kind : String
  namespaced : Bool
deriving DecidableEq, Repr

def ConfigMap : Kind := ⟨"v1", "configmaps", "ConfigMap", true⟩
def DaemonSet : Kind := ⟨"extensions/v1beta1", "daemonsets", "DaemonSet", true⟩
def Deployment : Kind := ⟨"extensions/v1beta1", "deployments", "Deployment", true⟩
def Endpoint : Kind := ⟨"v1", "endpoints", "Endpoint", true⟩
def Ingress : Kind := ⟨"extensions/v1beta1", "ingresses", "Ingress", true⟩
def Job : Kind := ⟨"extensions/v1beta1", "jobs", "Job", true⟩
def Namespace : Kind := ⟨"v1", "namespaces", "Namespace", false⟩
def Node : Kind := ⟨"v1", "nodes", "Node", false⟩
def Pod : Kind := ⟨"v1", "pods", "Pod", true⟩
def ReplicationController : Kind := ⟨"v1", "replicationcontrollers", "ReplicationController", true⟩
def Secret : Kind := ⟨"v1", "secrets", "Secret", true⟩
def Service : Kind := ⟨"v1", "services", "Service", true⟩
def PersistentVolume : Kind := ⟨"v1", "persistentvolumes", "PersistentVolume", false⟩
def PersistentVolumeClaim : Kind := ⟨"v1", "persistentvolumeclaims", "PersistentVolumeClaim", true⟩

/-- A resource handle: `obj` is the caller-editable current document,
`original_obj` the snapshot `_original_obj` (deep copies collapse to value
equality). -/
structure Handle where
  obj : Doc
  original_obj : Doc
deriving DecidableEq, Repr

/-- `APIObject.set_obj`: `self.obj = obj; self._original_obj = deepcopy(obj)`.
The previous state of the handle is discarded entirely. -/
def set_obj (_self : Handle) (obj : Doc) : Handle :=
  { obj := obj, original_obj := obj }

/-- Handle construction (`__init__` calls `set_obj` on the given document). -/
def mkHandle (obj : Doc) : Handle :=
  { obj := obj, original_obj := obj }

/-- `APIObject.name`: reads `self.obj["metadata"]["name"]` — the CURRENT
document, not the snapshot. -/
def Handle.name (h : Handle) : String := h.obj.name

/-- `NamespacedAPIObject.namespace`: `self.obj["metadata"].get("namespace")`
if truthy (present and non-empty), else `DEFAULT_NAMESPACE`. -/
def namespace_of (d : Doc) : String :=
  match d.ns with
  | some s => if s = "" then DEFAULT_NAMESPACE else s
  | none => DEFAULT_NAMESPACE

/-- The value of the `namespace` attribute `api_kwargs` consults: the
resolution property for namespace-scoped kinds, the class attribute `None`
for the rest. -/
def effective_namespace (k : Kind) (d : Doc) : Option String :=
  if k.namespaced then some (namespace_of d) else none

/-- `APIObject.api_kwargs`: the by-name URL is
`"{}/{}".format(self.endpoint, self._original_obj["metadata"]["name"])`
(the SNAPSHOT's name); with `collection=True` the bare collection endpoint is
used instead.  The namespace entry is added iff the attribute is not `None`;
the namespace property itself reads the current document. -/
def api_kwargs (k : Kind) (h : Handle) (collection : Bool) : Request :=
  { url := if collection then k.endpoint else k.endpoint ++ "/" ++ h.original_obj.name
    version := k.version
    ns := effective_namespace k h.obj
    headers := []
    data := none }

/-- The GET request issued by `exists` and `reload` (`api_kwargs()` with no
overrides). -/
def get_request (k : Kind) (h : Handle) : Request := api_kwargs k h false

/-- The POST request issued by `create`: collection endpoint,
`data=json.dumps(self.obj)`. -/
def create_request (k : Kind) (h : Handle) : Request :=
  { api_kwargs k h true with data := some (Payload.jsonBody h.obj) }

/-- The PATCH request issued by `update`: JSON-Patch content type and
`data = str(jsonpatch.make_patch(self._original_obj, self.obj))`.  It is built
and sent unconditionally — there is no emptiness check on the patch. -/
def update_request (k : Kind) (h : Handle) : Request :=
  { api_kwargs k h false with
      headers := [("Content-Type", "application/json-patch+json")]
      data := some (Payload.jsonPatch (make_patch h.original_obj h.obj)) }

/-- The DELETE request issued by `delete` (`api_kwargs()` with no overrides). -/
def delete_request (k : Kind) (h : Handle) : Request := api_kwargs k h false

/-- `APIObject.exists(ensure)` applied to the server's response: statuses
outside {200, 404} go through `raise_for_status`; then a non-`ok` response
either raises `ObjectDoesNotExist` (when `ensure`) or returns `False`, and an
`ok` response returns `True`. -/
def exists_step (h : Handle) (ensure : Bool) (r : Response) : Except PyError Bool :=
  match (if r.status_code ≠ 200 ∧ r.status_code ≠ 404 then raise_for_status r
         else Except.ok ()) with
  | Except.error e => Except.error e
  | Except.ok _ =>
    if !r.ok then
      if ensure then Except.error (PyError.objectDoesNotExist h.name)
      else Except.ok false
    else Except.ok true

/-- `APIObject.create` applied to the server's response: `raise_for_status`
then `set_obj(r.json())`.  On an exception the handle keeps its old state. -/
def create_step (h : Handle) (r : Response) : Handle × Option PyError :=
  match raise_for_status r with
  | Except.error e => (h, some e)
  | Except.ok _ => (set_obj h r.body, none)

/-- `APIObject.reload` applied to the server's response: `raise_for_status`
then `set_obj(r.json())`.  On an exception the handle keeps its old state. -/
def reload_step (h : Handle) (r : Response) : Handle × Option PyError :=
  match raise_for_status r with
  | Except.error e => (h, some e)
  | Except.ok _ => (set_obj h r.body, none)

/-- `APIObject.update` applied to the server's response (the patch itself is
in `update_request`): `raise_for_status` then `set_obj(r.json())`. -/
def update_step (h : Handle) (r : Response) : Handle × Option PyError :=
  match raise_for_status r with
  | Except.error e => (h, some e)
  | Except.ok _ => (set_obj h r.body, none)

/-- `APIObject.delete` applied to the server's response:
`if r.status_code != 404: raise_for_status(r)` — 404 is silently accepted,
and the handle's documents are never touched. -/
def delete_step (r : Response) : Option PyError :=
  if r.status_code = 404 then none
  else
    match raise_for_status r with
    | Except.error e => some e
    | Except.ok _ => none

/-- `ReplicatedAPIObject.replicas` getter: `self.obj["spec"]["replicas"]`. -/
def Handle.replicas (h : Handle) : Int := h.obj.replicas

/-- `ReplicatedAPIObject.replicas` setter: mutates the CURRENT document only;
the snapshot is untouched, so the next patch contains the change. -/
def Handle.setReplicas (h : Handle) (v : Int) : Handle :=
  { h with obj := { h.obj with replicas := v } }

/-- The fixed pause `time.sleep(1)` between polls in `scale`. -/
def poll_interval_seconds : Nat := 1

/-- The `while True` poll of `ReplicationController.scale`, driven by the
script `reloads` of successive reload responses: each iteration reloads, exits
once the reloaded document's replicas equal the target, otherwise sleeps
`poll_interval_seconds` and repeats.  Returns `Except.ok none` when the script
is exhausted with the loop still running (the loop itself has no cap), and
`Except.ok (some (h, slept))` on convergence, with the final handle and the
total seconds slept. -/
def scale_poll (h : Handle) (target : Int) (reloads : List Response) :
    Except PyError (Option (Handle × Nat)) :=
  match reloads with
  | [] => Except.ok none
  | r :: rest =>
    match reload_step h r with
    | (_, some e) => Except.error e
    | (h', none) =>
      if h'.replicas = target then Except.ok (some (h', 0))
      else
        match scale_poll h' target rest with
        | Except.ok (some (hf, n)) => Except.ok (some (hf, n + poll_interval_seconds))
        | other => other

/-- `ReplicationController.scale(replicas)`: default the target to the current
`replicas`, require existence via `exists(ensure=True)`, set the local
replicas, `update()`, then poll.  The result carries the PATCH request that
`update` sent, so theorems can inspect the payload; the response script is the
exists response, the update response, and the successive reload responses. -/
def scale (h : Handle) (target? : Option Int) (rE rU : Response)
    (reloads : List Response) : Except PyError (Request × Option (Handle × Nat)) :=
  let target := target?.getD h.replicas
  match exists_step h true rE with
  | Except.error e => Except.error e
  | Except.ok _ =>
    let h1 := h.setReplicas target
    let req := update_request ReplicationController h1
    match update_step h1 rU with
    | (_, some e) => Except.error e
    | (h2, none) =>
      match scale_poll h2 target reloads with
      | Except.error e => Except.error e
      | Except.ok out => Except.ok (req, out)

/-- The keyword options of `Pod.logs`, with the source's defaults. -/
structure LogOptions where
  container : Option String := none
  pretty : Option String := none
  previous : Bool := false
  since_seconds : Option Int := none
  since_time : Option String := none
  timestamps : Bool := false
  tail_lines : Option Int := none
  limit_bytes : Option Int := none
deriving DecidableEq, Repr

/-- A `params` entry guarded by `if x is not None` (rendered with `f`). -/
def opt_entry {α : Type} (key : String) (o : Option α) (f : α → String) :
    List (String × String) :=
  match o with
  | some a => [(key, f a)]
  | none => []

/-- A `params` entry guarded by a truthiness test, with literal value
`"true"` (the `previous` and `timestamps` options). -/
def flag_entry (key : String) (b : Bool) : List (String × String) :=
  if b then [(key, "true")] else []

/-- The mutually guarded since pair: `sinceSeconds` is added only when
`since_time` is absent (`if since_seconds is not None and since_time is
None`) and `sinceTime` only when `since_seconds` is absent, so supplying both
drops both. -/
def since_entry (ss : Option Int) (st : Option String) : List (String × String) :=
  match ss, st with
  | some s, none => [("sinceSeconds", toString s)]
  | none, some t => [("sinceTime", t)]
  | _, _ => []

/-- The `params` dict `Pod.logs` builds, in source insertion order. -/
def log_params (o : LogOptions) : List (String × String) :=
  opt_entry "container" o.container id ++
  opt_entry "pretty" o.pretty id ++
  flag_entry "previous" o.previous ++
  since_entry o.since_seconds o.since_time ++
  flag_entry "timestamps" o.timestamps ++
  opt_entry "tailLines" o.tail_lines toString ++
  opt_entry "limitBytes" o.limit_bytes toString

/-- The set of query-parameter keys `logs` encodes. -/
def log_keys (o : LogOptions) : List String := (log_params o).map Prod.fst

/-- `urlencode` over the params dict (values here never need escaping). -/
def urlencode (ps : List (String × String)) : String :=
  String.intercalate "&" (ps.map (fun kv => kv.1 ++ "=" ++ kv.2))

/-- The keyword arguments of the GET that `Pod.logs` issues.  Unlike every
lifecycle operation, it does not go through `api_kwargs`: the pod is addressed
by `self.name`, the CURRENT document's name. -/
structure LogsKwargs where
  url : String
  pods : String
  ns : String
  version : String
deriving DecidableEq, Repr

/-- `Pod.logs` up to the transport call: builds the query string and the
kwargs `{"url": url, "pods": self.name, "namespace": self.namespace,
"version": self.version}`. -/
def logs_kwargs (h : Handle) (o : LogOptions) : LogsKwargs :=
  let qs := urlencode (log_params o)
  { url := "log" ++ (if qs = "" then "" else "?" ++ qs)
    pods := h.name
    ns := namespace_of h.obj
    version := Pod.version }

/-! ### Helper lemmas -/

lemma isSuccess_lt_400 (s : Nat) (hs : isSuccess s = true) : s < 400 := by
  simp [isSuccess] at hs
  omega

lemma isSuccess_200 : isSuccess 200 = true := by decide

lemma ok_of_isSuccess (r : Response) (hs : isSuccess r.status_code = true) : r.ok = true := by
  have := isSuccess_lt_400 r.status_code hs
  simp [Response.ok]
  omega

lemma raise_for_status_of_success (r : Response) (hs : isSuccess r.status_code = true) :
    raise_for_status r = Except.ok () := by
  simp [raise_for_status, hs]

lemma raise_for_status_of_failure (r : Response) (hs : isSuccess r.status_code = false) :
    raise_for_status r = Except.error (PyError.httpError r.status_code) := by
  simp [raise_for_status, hs]

lemma exists_step_of_success (h : Handle) (e : Bool) (r : Response)
    (hs : isSuccess r.status_code = true) : exists_step h e r = Except.ok true := by
  simp [exists_step, raise_for_status_of_success r hs, ok_of_isSuccess r hs]

lemma exists_step_of_404 (h : Handle) (e : Bool) (r : Response)
    (h4 : r.status_code = 404) :
    exists_step h e r = if e then Except.error (PyError.objectDoesNotExist h.name)
      else Except.ok false := by
  have hok : r.ok = false := by simp [Response.ok, h4]
  cases e <;> simp [exists_step, h4, hok]

lemma exists_step_of_other (h : Handle) (e : Bool) (r : Response)
    (hs : isSuccess r.status_code = false) (h4 : r.status_code ≠ 404) :
    exists_step h e r = Except.error (PyError.httpError r.status_code) := by
  have h200 : r.status_code ≠ 200 := by
    intro hc
    rw [hc] at hs
    exact absurd hs (by decide)
  simp [exists_step, h200, h4, raise_for_status_of_failure r hs]

lemma create_step_of_success (h : Handle) (r : Response)
    (hs : isSuccess r.status_code = true) :
    create_step h r = (set_obj h r.body, none) := by
  simp [create_step, raise_for_status_of_success r hs]

lemma reload_step_of_success (h : Handle) (r : Response)
    (hs : isSuccess r.status_code = true) :
    reload_step h r = (set_obj h r.body, none) := by
  simp [reload_step, raise_for_status_of_success r hs]

lemma update_step_of_success (h : Handle) (r : Response)
    (hs : isSuccess r.status_code = true) :
    update_step h r = (set_obj h r.body, none) := by
  simp [update_step, raise_for_status_of_success r hs]

lemma create_step_of_failure (h : Handle) (r : Response)
    (hs : isSuccess r.status_code = false) :
    create_step h r = (h, some (PyError.httpError r.status_code)) := by
  simp [create_step, raise_for_status_of_failure r hs]

lemma reload_step_of_failure (h : Handle) (r : Response)
    (hs : isSuccess r.status_code = false) :
    reload_step h r = (h, some (PyError.httpError r.status_code)) := by
  simp [reload_step, raise_for_status_of_failure r hs]

lemma update_step_of_failure (h : Handle) (r : Response)
    (hs : isSuccess r.status_code = false) :
    update_step h r = (h, some (PyError.httpError r.status_code)) := by
  simp [update_step, raise_for_status_of_failure r hs]

lemma make_patch_self (d : Doc) : make_patch d d = [] := by
  simp [make_patch]

lemma scale_poll_converged (t : Int) :
    ∀ (rl : List Response) (h hf : Handle) (n : Nat),
      scale_poll h t rl = Except.ok (some (hf, n)) → hf.replicas = t := by
  intro rl
  induction rl with
  | nil =>
    intro h hf n hEq
    simp [scale_poll] at hEq
  | cons r rest ih =>
    intro h hf n hEq
    rw [scale_poll] at hEq
    rcases hstep : reload_step h r with ⟨h', e?⟩
    rw [hstep] at hEq
    cases e? with
    | some e => simp at hEq
    | none =>
      simp only at hEq
      by_cases hrep : h'.replicas = t
      · rw [if_pos hrep] at hEq
        cases hEq
        exact hrep
      · rw [if_neg hrep] at hEq
        rcases hrec : scale_poll h' t rest with e' | out
        · rw [hrec] at hEq
          simp at hEq
        · rw [hrec] at hEq
          cases out with
          | none => simp at hEq
          | some p =>
            rcases p with ⟨hg, m⟩
            simp at hEq
            rcases hEq with ⟨hEq1, -⟩
            rw [← hEq1]
            exact ih h' hg m hrec

lemma scale_poll_replicate (t : Int) (r : Response)
    (hs : isSuccess r.status_code = true) (hne : r.body.replicas ≠ t) :
    ∀ (n : Nat) (h : Handle), scale_poll h t (List.replicate n r) = Except.ok none := by
  intro n
  induction n with
  | zero => intro h; simp [scale_poll]
  | succ m ih =>
    intro h
    rw [List.replicate_succ, scale_poll, reload_step_of_success _ _ hs]
    simp [set_obj, Handle.replicas, hne, ih]

lemma mem_keys_opt_entry {α : Type} (k key : String) (o : Option α) (f : α → String) :
    k ∈ (opt_entry key o f).map Prod.fst ↔ (k = key ∧ o ≠ none) := by
  cases o <;> simp [opt_entry]

lemma mem_keys_flag_entry (k key : String) (b : Bool) :
    k ∈ (flag_entry key b).map Prod.fst ↔ (k = key ∧ b = true) := by
  cases b <;> simp [flag_entry]

lemma mem_keys_since (k : String) (ss : Option Int) (st : Option String) :
    k ∈ (since_entry ss st).map Prod.fst ↔
      ((k = "sinceSeconds" ∧ ss ≠ none ∧ st = none) ∨
       (k = "sinceTime" ∧ st ≠ none ∧ ss = none)) := by
  cases ss <;> cases st <;> simp [since_entry]

/-! ### Claim theorems -/

/-- C1: for every handle and every server response body, after a successful
`create()`, `reload()` or `update()` the handle's current document equals its
original snapshot, and both equal the server's returned representation. -/
theorem sync_after_success (h : Handle) (r : Response)
    (hs : isSuccess r.status_code = true) :
    ((create_step h r).2 = none ∧ (create_step h r).1.obj = (create_step h r).1.original_obj ∧
      (create_step h r).1.obj = r.body) ∧
    ((reload_step h r).2 = none ∧ (reload_step h r).1.obj = (reload_step h r).1.original_obj ∧
      (reload_step h r).1.obj = r.body) ∧
    ((update_step h r).2 = none ∧ (update_step h r).1.obj = (update_step h r).1.original_obj ∧
      (update_step h r).1.obj = r.body) := by
  rw [create_step_of_success h r hs, reload_step_of_success h r hs, update_step_of_success h r hs]
  simp [set_obj]

/-- Witness for C1 at a concrete handle and a 200 response: after the update
the current document is the server's returned body. -/
theorem sync_after_success_witness :
    (update_step (mkHandle ⟨"cfg1", none, 0, [("k", "v")]⟩)
        ⟨200, ⟨"cfg1", some "ns1", 0, [("k", "v2")]⟩⟩).1.obj
      = Doc.mk "cfg1" (some "ns1") 0 [("k", "v2")] :=
  (sync_after_success (mkHandle ⟨"cfg1", none, 0, [("k", "v")]⟩)
    ⟨200, ⟨"cfg1", some "ns1", 0, [("k", "v2")]⟩⟩ (by decide)).2.2.2.2

/-- C2: every by-name operation — `exists` and `reload` (both issue the plain
`api_kwargs()` GET), `update` and `delete` — addresses the remote object at
`{endpoint}/{name}` with the name taken from the ORIGINAL snapshot, so a
local rename of the current document does not change the URL. -/
theorem by_name_url_uses_original (k : Kind) (h : Handle) (n' : String) :
    (get_request k h).url = k.endpoint ++ "/" ++ h.original_obj.name ∧
    (update_request k h).url = k.endpoint ++ "/" ++ h.original_obj.name ∧
    (delete_request k h).url = k.endpoint ++ "/" ++ h.original_obj.name ∧
    (get_request k { h with obj := { h.obj with name := n' } }).url
      = k.endpoint ++ "/" ++ h.original_obj.name ∧
    (update_request k { h with obj := { h.obj with name := n' } }).url
      = k.endpoint ++ "/" ++ h.original_obj.name ∧
    (delete_request k { h with obj := { h.obj with name := n' } }).url
      = k.endpoint ++ "/" ++ h.original_obj.name := by
  simp [get_request, update_request, delete_request, api_kwargs]

/-- C3: `update()` always sends the JSON Patch diffing `original` against
`current`, with no short-circuit for the empty patch; for a freshly
constructed handle the patch is empty and a successful update leaves
`current == original ==` the server-returned form. -/
theorem update_always_sends_diff (k : Kind) (h : Handle) (d : Doc) (r : Response)
    (hs : isSuccess r.status_code = true) :
    (update_request k h).data = some (Payload.jsonPatch (make_patch h.original_obj h.obj)) ∧
    (h.original_obj = h.obj → make_patch h.original_obj h.obj = []) ∧
    (update_request k (mkHandle d)).data = some (Payload.jsonPatch []) ∧
    update_step (mkHandle d) r = ({ obj := r.body, original_obj := r.body }, none) := by
  refine ⟨rfl, ?_, ?_, ?_⟩
  · intro heq
    rw [heq]
    exact make_patch_self h.obj
  · simp [update_request, mkHandle, make_patch_self]
  · rw [update_step_of_success _ r hs]
    rfl

/-- Witness for C3 at a concrete kind, handle, document and 200 response:
a fresh handle's update request carries the empty patch. -/
theorem update_always_sends_diff_witness :
    (update_request ConfigMap (mkHandle ⟨"cfg1", none, 0, []⟩)).data
      = some (Payload.jsonPatch []) :=
  (update_always_sends_diff ConfigMap (mkHandle ⟨"cfg1", none, 0, []⟩)
    ⟨"cfg1", none, 0, []⟩ ⟨200, ⟨"cfg1", some "default", 0, []⟩⟩ (by decide)).2.2.1

/-- C4 counterexample: HTTP 201 is a status other than 200 and 404, yet
`exists()` neither raises a transport error nor fails — it returns `True`,
because `raise_for_status` accepts every 2xx status and a 201 response is
`ok`.  This falsifies "surfaces any status other than 200 or 404 as a
transport error". -/
theorem exists_201_counterexample :
    ((201 : Nat) ≠ 200 ∧ (201 : Nat) ≠ 404) ∧
    exists_step (mkHandle ⟨"cfg1", none, 0, []⟩) false ⟨201, ⟨"cfg1", none, 0, []⟩⟩
      = Except.ok true :=
  ⟨by decide, rfl⟩

/-- C4 (amended): `exists(ensure)` returns `true` on any 2xx status
(including 200), returns `false` on 404 when `ensure` is false, raises
NotFound on 404 when `ensure` is true, and surfaces any status that is
neither 2xx nor 404 as a transport error. -/
theorem exists_status_behavior (h : Handle) (e : Bool) (r : Response) :
    (isSuccess r.status_code = true → exists_step h e r = Except.ok true) ∧
    (r.status_code = 404 → e = true →
      exists_step h e r = Except.error (PyError.objectDoesNotExist h.name)) ∧
    (r.status_code = 404 → e = false → exists_step h e r = Except.ok false) ∧
    (isSuccess r.status_code = false → r.status_code ≠ 404 →
      exists_step h e r = Except.error (PyError.httpError r.status_code)) := by
  refine ⟨fun hs => exists_step_of_success h e r hs, ?_, ?_, ?_⟩
  · intro h4 he
    rw [exists_step_of_404 h e r h4, he, if_pos rfl]
  · intro h4 he
    rw [exists_step_of_404 h e r h4, he]
    rfl
  · exact exists_step_of_other h e r

/-- Witness for C4's amended theorem: `exists(ensure=True)` on a 404 raises
`ObjectDoesNotExist` for the handle's name. -/
theorem exists_status_behavior_witness :
    exists_step (mkHandle ⟨"cfg1", none, 0, []⟩) true ⟨404, ⟨"cfg1", none, 0, []⟩⟩
      = Except.error (PyError.objectDoesNotExist "cfg1") :=
  (exists_status_behavior (mkHandle ⟨"cfg1", none, 0, []⟩) true
    ⟨404, ⟨"cfg1", none, 0, []⟩⟩).2.1 rfl rfl

/-- C5: `delete()` returns normally exactly on 2xx or 404 (so a second delete
observing 404 after a successful first delete returns normally), and raises
the transport error carrying the status exactly for statuses that are neither
2xx nor 404.  The handle's documents are never touched by `delete_step`. -/
theorem delete_404_is_success (r : Response) (d : Doc) :
    (delete_step r = none ↔ (r.status_code = 404 ∨ isSuccess r.status_code = true)) ∧
    (delete_step r = some (PyError.httpError r.status_code) ↔
      (r.status_code ≠ 404 ∧ isSuccess r.status_code = false)) ∧
    delete_step ⟨404, d⟩ = none := by
  refine ⟨?_, ?_, rfl⟩ <;>
  · by_cases h4 : r.status_code = 404 <;> by_cases hs : isSuccess r.status_code <;>
      simp [delete_step, h4, hs, raise_for_status]

/-- Witness for C5: the second delete of a double delete observes 404 and
returns normally. -/
theorem delete_404_is_success_witness :
    delete_step ⟨404, ⟨"cfg1", none, 0, []⟩⟩ = none :=
  (delete_404_is_success ⟨404, ⟨"cfg1", none, 0, []⟩⟩ ⟨"cfg1", none, 0, []⟩).2.2

/-- C6: `scale(t)` defaults the target to the current replicas when `t` is
omitted, raises NotFound when the existence check answers 404, sends the
update for the handle with local replicas set to `t`, and polls `reload()`
with a fixed 1-second pause until the reloaded replicas equal the target; on
normal return the handle's replicas equal the target, and for every `n` there
is a response script keeping the loop running past `n` reloads (no iteration
cap). -/
theorem scale_behavior (h : Handle) (t : Int) (rE rU : Response) (reloads : List Response)
    (hE : isSuccess rE.status_code = true) (hU : isSuccess rU.status_code = true) :
    scale h none rE rU reloads = scale h (some h.replicas) rE rU reloads ∧
    (∀ r4 : Response, r4.status_code = 404 →
      scale h (some t) r4 rU reloads = Except.error (PyError.objectDoesNotExist h.name)) ∧
    (∀ req out, scale h (some t) rE rU reloads = Except.ok (req, out) →
      req = update_request ReplicationController (h.setReplicas t)) ∧
    (∀ req hf n, scale h (some t) rE rU reloads = Except.ok (req, some (hf, n)) →
      hf.replicas = t) ∧
    poll_interval_seconds = 1 ∧
    (∀ n : Nat, ∃ rl : List Response, rl.length = n ∧
      scale h (some t) rE rU rl
        = Except.ok (update_request ReplicationController (h.setReplicas t), none)) := by
  have hred : ∀ (t' : Int) (rl : List Response), scale h (some t') rE rU rl =
      match scale_poll (set_obj (h.setReplicas t') rU.body) t' rl with
      | Except.error e => Except.error e
      | Except.ok out =>
        Except.ok (update_request ReplicationController (h.setReplicas t'), out) := by
    intro t' rl
    simp only [scale, Option.getD_some, exists_step_of_success h true rE hE,
      update_step_of_success _ rU hU]
  refine ⟨rfl, ?_, ?_, ?_, rfl, ?_⟩
  · intro r4 h4
    simp [scale, exists_step_of_404 h true r4 h4]
  · intro req out hEq
    rw [hred t reloads] at hEq
    rcases hpoll : scale_poll (set_obj (h.setReplicas t) rU.body) t reloads with e | out'
    · rw [hpoll] at hEq
      simp at hEq
    · rw [hpoll] at hEq
      simp at hEq
      exact hEq.1.symm
  · intro req hf n hEq
    rw [hred t reloads] at hEq
    rcases hpoll : scale_poll (set_obj (h.setReplicas t) rU.body) t reloads with e | out'
    · rw [hpoll] at hEq
      simp at hEq
    · rw [hpoll] at hEq
      simp at hEq
      rw [hEq.2] at hpoll
      exact scale_poll_converged t reloads _ hf n hpoll
  · intro n
    refine ⟨List.replicate n ⟨200, { h.obj with replicas := t + 1 }⟩, by simp, ?_⟩
    rw [hred t (List.replicate n ⟨200, { h.obj with replicas := t + 1 }⟩),
      scale_poll_replicate t ⟨200, { h.obj with replicas := t + 1 }⟩ isSuccess_200
        (by show t + 1 ≠ t; omega) n _]

/-- Witness for C6: a 404 on the existence check makes `scale` raise
`ObjectDoesNotExist` for the handle's name. -/
theorem scale_behavior_witness :
    scale (mkHandle ⟨"rc1", none, 2, []⟩) (some 5) ⟨404, ⟨"rc1", none, 2, []⟩⟩
        ⟨200, ⟨"rc1", none, 5, []⟩⟩ []
      = Except.error (PyError.objectDoesNotExist "rc1") :=
  (scale_behavior (mkHandle ⟨"rc1", none, 2, []⟩) 5 ⟨200, ⟨"rc1", none, 2, []⟩⟩
    ⟨200, ⟨"rc1", none, 5, []⟩⟩ [] (by decide) (by decide)).2.1
    ⟨404, ⟨"rc1", none, 2, []⟩⟩ rfl

/-- C7: a namespace-scoped handle's effective namespace is
`current.metadata.namespace` when present and non-empty, else `"default"`;
requests of namespaced kinds carry it, and non-namespaced kinds send no
namespace entry at all. -/
theorem namespace_resolution (k : Kind) (h : Handle) (s : String) (c : Bool) :
    (h.obj.ns = none → namespace_of h.obj = DEFAULT_NAMESPACE) ∧
    (h.obj.ns = some "" → namespace_of h.obj = DEFAULT_NAMESPACE) ∧
    (h.obj.ns = some s → s ≠ "" → namespace_of h.obj = s) ∧
    (k.namespaced = true → (api_kwargs k h c).ns = some (namespace_of h.obj)) ∧
    (k.namespaced = false → (api_kwargs k h c).ns = none) := by
  refine ⟨?_, ?_, ?_, ?_, ?_⟩
  · intro hn
    simp [namespace_of, hn]
  · intro hn
    simp [namespace_of, hn]
  · intro hn hne
    simp [namespace_of, hn, hne]
  · intro hk
    simp [api_kwargs, effective_namespace, hk]
  · intro hk
    simp [api_kwargs, effective_namespace, hk]

/-- Witness for C7: a pod document with `metadata.namespace = "ns1"` resolves
to `"ns1"`. -/
theorem namespace_resolution_witness :
    namespace_of (Doc.mk "p1" (some "ns1") 0 []) = "ns1" :=
  (namespace_resolution Pod (mkHandle ⟨"p1", some "ns1", 0, []⟩) "ns1" false).2.2.1
    rfl (by decide)

/-- C8: `logs()` never encodes both `sinceSeconds` and `sinceTime` (each is
encoded exactly when it is supplied and the other is absent), every other
recognized option is encoded exactly when supplied (truthy for the boolean
flags), and `logs(tail_lines=50, timestamps=True)` encodes exactly
`timestamps=true` and `tailLines=50`. -/
theorem log_params_exclusive (o : LogOptions) :
    ¬("sinceSeconds" ∈ log_keys o ∧ "sinceTime" ∈ log_keys o) ∧
    ("sinceSeconds" ∈ log_keys o ↔ (o.since_seconds ≠ none ∧ o.since_time = none)) ∧
    ("sinceTime" ∈ log_keys o ↔ (o.since_time ≠ none ∧ o.since_seconds = none)) ∧
    ("container" ∈ log_keys o ↔ o.container ≠ none) ∧
    ("pretty" ∈ log_keys o ↔ o.pretty ≠ none) ∧
    ("previous" ∈ log_keys o ↔ o.previous = true) ∧
    ("timestamps" ∈ log_keys o ↔ o.timestamps = true) ∧
    ("tailLines" ∈ log_keys o ↔ o.tail_lines ≠ none) ∧
    ("limitBytes" ∈ log_keys o ↔ o.limit_bytes ≠ none) ∧
    log_params { tail_lines := some 50, timestamps := true }
      = [("timestamps", "true"), ("tailLines", "50")] := by
  refine ⟨?_, ?_, ?_, ?_, ?_, ?_, ?_, ?_, ?_, rfl⟩ <;>
  · simp only [log_keys, log_params, List.map_append, List.mem_append,
      mem_keys_opt_entry, mem_keys_flag_entry, mem_keys_since]
    simp
    try tauto

/-- Witness for C8: `logs(tail_lines=50, timestamps=True)` encodes exactly
`timestamps=true` and `tailLines=50`. -/
theorem log_params_exclusive_witness :
    log_params { tail_lines := some 50, timestamps := true }
      = [("timestamps", "true"), ("tailLines", "50")] :=
  (log_params_exclusive {}).2.2.2.2.2.2.2.2.2

/-- C9: if `create()`, `reload()` or `update()` observes a non-2xx response,
the raised transport error leaves both documents exactly as they were; in
general each operation either leaves the handle untouched or replaces both
documents with the response body — never a partial state. -/
theorem lifecycle_atomic_on_error (h : Handle) (r : Response)
    (hf : isSuccess r.status_code = false) :
    create_step h r = (h, some (PyError.httpError r.status_code)) ∧
    reload_step h r = (h, some (PyError.httpError r.status_code)) ∧
    update_step h r = (h, some (PyError.httpError r.status_code)) ∧
    (∀ r' : Response, (create_step h r').1 = h ∨ (create_step h r').1 = set_obj h r'.body) ∧
    (∀ r' : Response, (reload_step h r').1 = h ∨ (reload_step h r').1 = set_obj h r'.body) ∧
    (∀ r' : Response, (update_step h r').1 = h ∨ (update_step h r').1 = set_obj h r'.body) := by
  refine ⟨create_step_of_failure h r hf, reload_step_of_failure h r hf,
    update_step_of_failure h r hf, ?_, ?_, ?_⟩ <;>
  · intro r'
    by_cases hs : isSuccess r'.status_code
    · right
      simp [create_step_of_success h r' hs, reload_step_of_success h r' hs,
        update_step_of_success h r' hs]
    · left
      simp [create_step_of_failure h r' (by simpa using hs),
        reload_step_of_failure h r' (by simpa using hs),
        update_step_of_failure h r' (by simpa using hs)]

/-- Witness for C9: a 500 response leaves the handle unchanged and reports
the transport error. -/
theorem lifecycle_atomic_on_error_witness :
    update_step (mkHandle ⟨"cfg1", none, 0, []⟩) ⟨500, ⟨"other", none, 0, []⟩⟩
      = (mkHandle ⟨"cfg1", none, 0, []⟩, some (PyError.httpError 500)) :=
  (lifecycle_atomic_on_error (mkHandle ⟨"cfg1", none, 0, []⟩)
    ⟨500, ⟨"other", none, 0, []⟩⟩ (by decide)).2.2.1

/-- C10: `logs()` addresses the pod through `self.name`, the CURRENT
document's `metadata.name`, so a local rename changes which pod's logs are
fetched — while the by-name lifecycle URL still uses the original snapshot's
name. -/
theorem logs_addresses_current_name (h : Handle) (o : LogOptions) (n' : String) :
    (logs_kwargs h o).pods = h.obj.name ∧
    (logs_kwargs { h with obj := { h.obj with name := n' } } o).pods = n' ∧
    (get_request Pod { h with obj := { h.obj with name := n' } }).url
      = Pod.endpoint ++ "/" ++ h.original_obj.name := by
  refine ⟨rfl, rfl, ?_⟩
  simp [get_request, api_kwargs]

end Pykube
